import Mathlib

/-!
Verification of the ac-bridge real-time core: a shallow embedding of the
action smoother (ac_bridge/action_smoother.py), the drift-correcting ticker
(ac_bridge/timing.py), the telemetry cache and background poller
(ac_bridge/client.py), and the real-time stepper (ac_bridge/stepper.py).
Python floats are modelled as rationals; time values are external inputs.
-/

namespace ACBridge

/-- Python exception values relevant to the bridge core. -/
inductive PyError
  | runtimeError (msg : String)
  | valueError (msg : String)
  deriving Repr, DecidableEq

/-- Model of numpy clip: equivalent to min hi (max lo x). -/
def npClip (x lo hi : ℚ) : ℚ := min hi (max lo x)

/-- SmoothingConfig dataclass (action_smoother.py); field defaults are the
dataclass defaults. -/
structure SmoothingConfig where
  enable_rate_limiting : Bool := true
  max_steer_delta : ℚ := 15/100
  max_throttle_up : ℚ := 10/100
  max_throttle_down : ℚ := 25/100
  max_brake_up : ℚ := 30/100
  max_brake_down : ℚ := 10/100
  max_clutch_delta : ℚ := 50/100
  enable_ema_smoothing : Bool := true
  steer_alpha : ℚ := 6/10
  throttle_alpha : ℚ := 7/10
  brake_alpha : ℚ := 7/10
  clutch_alpha : ℚ := 8/10
  clamp_steer_min : ℚ := -1
  clamp_steer_max : ℚ := 1
  clamp_pedals_min : ℚ := 0
  clamp_pedals_max : ℚ := 1
  deriving Repr, DecidableEq

/-- Mutable state of ActionSmoother: the prev fields are the state tracking
block of ActionSmoother.__init__, the remaining fields its statistics block. -/
structure SmootherState where
  prev_steer : ℚ
  prev_throttle : ℚ
  prev_brake : ℚ
  prev_clutch : ℚ
  step_count : ℕ
  total_steer_delta : ℚ
  total_throttle_delta : ℚ
  total_brake_delta : ℚ
  deriving Repr, DecidableEq

/-- State created by ActionSmoother.__init__: all previous outputs 0 and all
statistics 0. -/
def SmootherState.init : SmootherState :=
  { prev_steer := 0, prev_throttle := 0, prev_brake := 0, prev_clutch := 0
    step_count := 0, total_steer_delta := 0, total_throttle_delta := 0
    total_brake_delta := 0 }

/-- ActionSmoother._apply_rate_limit: asymmetric clamping of the step delta. -/
def applyRateLimit (target prev max_up_rate max_down_rate : ℚ) : ℚ :=
  let delta := target - prev
  let delta := if delta > 0 then min delta max_up_rate else max delta (-max_down_rate)
  prev + delta

/-- ActionSmoother._apply_ema: exponential moving average. -/
def applyEma (target prev alpha : ℚ) : ℚ :=
  alpha * target + (1 - alpha) * prev

/-- ActionSmoother.smooth: phase 0 hard clamps, phase 1 rate limiting if
enabled, phase 2 EMA smoothing if enabled, final clamps, then statistics and
previous-value updates.  Returns the new state and the four outputs. -/
def smooth (cfg : SmoothingConfig) (s : SmootherState)
    (steer throttle brake clutch : ℚ) : SmootherState × ℚ × ℚ × ℚ × ℚ :=
  -- Phase 0: hard clamps on inputs (always applied)
  let steer0 := npClip steer cfg.clamp_steer_min cfg.clamp_steer_max
  let throttle0 := npClip throttle cfg.clamp_pedals_min cfg.clamp_pedals_max
  let brake0 := npClip brake cfg.clamp_pedals_min cfg.clamp_pedals_max
  let clutch0 := npClip clutch cfg.clamp_pedals_min cfg.clamp_pedals_max
  -- Phase 1: rate limiting (if enabled)
  let p1 :=
    if cfg.enable_rate_limiting then
      (applyRateLimit steer0 s.prev_steer cfg.max_steer_delta cfg.max_steer_delta,
       applyRateLimit throttle0 s.prev_throttle cfg.max_throttle_up cfg.max_throttle_down,
       applyRateLimit brake0 s.prev_brake cfg.max_brake_up cfg.max_brake_down,
       applyRateLimit clutch0 s.prev_clutch cfg.max_clutch_delta cfg.max_clutch_delta)
    else (steer0, throttle0, brake0, clutch0)
  -- Phase 2: EMA smoothing (if enabled)
  let p2 :=
    if cfg.enable_ema_smoothing then
      (applyEma p1.1 s.prev_steer cfg.steer_alpha,
       applyEma p1.2.1 s.prev_throttle cfg.throttle_alpha,
       applyEma p1.2.2.1 s.prev_brake cfg.brake_alpha,
       applyEma p1.2.2.2 s.prev_clutch cfg.clutch_alpha)
    else p1
  -- Final clamps (safety)
  let steerF := npClip p2.1 cfg.clamp_steer_min cfg.clamp_steer_max
  let throttleF := npClip p2.2.1 cfg.clamp_pedals_min cfg.clamp_pedals_max
  let brakeF := npClip p2.2.2.1 cfg.clamp_pedals_min cfg.clamp_pedals_max
  let clutchF := npClip p2.2.2.2 cfg.clamp_pedals_min cfg.clamp_pedals_max
  -- Track statistics, update previous values, bump step count
  ({ prev_steer := steerF, prev_throttle := throttleF, prev_brake := brakeF
     prev_clutch := clutchF
     step_count := s.step_count + 1
     total_steer_delta := s.total_steer_delta + |steerF - s.prev_steer|
     total_throttle_delta := s.total_throttle_delta + |throttleF - s.prev_throttle|
     total_brake_delta := s.total_brake_delta + |brakeF - s.prev_brake| },
   (steerF, throttleF, brakeF, clutchF))

/-- ActionSmoother.reset: sets the four previous outputs to 0; the statistics
fields are not touched by the source. -/
def smootherReset (s : SmootherState) : SmootherState :=
  { s with prev_steer := 0, prev_throttle := 0, prev_brake := 0, prev_clutch := 0 }

/-- Iterate smooth n times with a constant target, keeping the state. -/
def smoothN (cfg : SmoothingConfig) (steer throttle brake clutch : ℚ) :
    ℕ → SmootherState → SmootherState
  | 0, s => s
  | n + 1, s => smoothN cfg steer throttle brake clutch n
      (smooth cfg s steer throttle brake clutch).1

/-- get_moderate_config preset (action_smoother.py). -/
def get_moderate_config : SmoothingConfig :=
  { max_steer_delta := 15/100
    max_throttle_up := 10/100
    max_throttle_down := 25/100
    max_brake_up := 30/100
    max_brake_down := 10/100
    steer_alpha := 6/10
    throttle_alpha := 7/10
    brake_alpha := 7/10 }

/-- get_conservative_config preset (action_smoother.py). -/
def get_conservative_config : SmoothingConfig :=
  { max_steer_delta := 10/100
    max_throttle_up := 8/100
    max_throttle_down := 20/100
    max_brake_up := 25/100
    max_brake_down := 8/100
    steer_alpha := 5/10
    throttle_alpha := 6/10
    brake_alpha := 6/10 }

/-- get_aggressive_config preset (action_smoother.py). -/
def get_aggressive_config : SmoothingConfig :=
  { max_steer_delta := 20/100
    max_throttle_up := 15/100
    max_throttle_down := 30/100
    max_brake_up := 40/100
    max_brake_down := 15/100
    steer_alpha := 7/10
    throttle_alpha := 8/10
    brake_alpha := 8/10 }

/-- get_no_smoothing_config preset (action_smoother.py). -/
def get_no_smoothing_config : SmoothingConfig :=
  { enable_rate_limiting := false
    enable_ema_smoothing := false }

/-!
Ticker (timing.py).  Time readings are external inputs of the model: each
call of the next operation receives the clock value observed after the
optional sleep.  The deadline the call waits for is the stored t_next.
-/

/-- Mutable state of Ticker. -/
structure TickerState where
  hz : ℤ
  dt_target : ℚ
  seq : ℤ
  t_start : ℚ
  t_last : ℚ
  t_next : ℚ
  total_drift : ℚ
  max_jitter : ℚ
  deriving Repr, DecidableEq

/-- Ticker.__init__: rejects non-positive hz, otherwise anchors the schedule
at the construction time t0 with first deadline t0 + dt_target. -/
def tickerInit (hz : ℤ) (start_seq : ℤ) (t0 : ℚ) : Except PyError TickerState :=
  if hz ≤ 0 then .error (.valueError "hz must be positive")
  else .ok
    { hz := hz, dt_target := 1 / (hz : ℚ), seq := start_seq
      t_start := t0, t_last := t0, t_next := t0 + 1 / (hz : ℚ)
      total_drift := 0, max_jitter := 0 }

/-- Deadline that the sleep inside Ticker.__next__ waits for: the stored
t_next at the moment the call begins. -/
def deadlineWaited (s : TickerState) : ℚ := s.t_next

/-- Ticker.__next__ after the optional sleep: t_now2 is the re-read clock
value.  Updates statistics, t_last, t_next (computed from t_start and the
not-yet-incremented seq), then increments seq; returns
(seq, t_wall, dt_target, dt_actual). -/
def tickerNext (s : TickerState) (t_now2 : ℚ) :
    TickerState × ℤ × ℚ × ℚ × ℚ :=
  let dt_actual := t_now2 - s.t_last
  let jitter := |dt_actual - s.dt_target|
  ({ s with
      max_jitter := max s.max_jitter jitter
      total_drift := s.total_drift + (dt_actual - s.dt_target)
      t_last := t_now2
      t_next := s.t_start + ((s.seq : ℚ) + 1) * s.dt_target
      seq := s.seq + 1 },
   (s.seq, t_now2, s.dt_target, dt_actual))

/-- Ticker.reset: re-anchors the schedule at the current time t_now with the
given start sequence and clears the drift statistics. -/
def tickerReset (s : TickerState) (start_seq : ℤ) (t_now : ℚ) : TickerState :=
  { s with
      seq := start_seq
      t_start := t_now
      t_last := t_now
      t_next := t_now + s.dt_target
      total_drift := 0
      max_jitter := 0 }

/-!
Telemetry frames, the single-slot cache and the background poller
(protocol.py, client.py).  Observation vectors are lists of rationals and
the metadata dict is modelled as an association list with rational values.
-/

/-- TelemetryFrame dataclass (protocol.py): timing metadata, observation
vector and raw-info map. -/
structure TelemetryFrame where
  seq : ℤ
  t_wall : ℚ
  dt : ℚ
  dt_actual : ℚ
  obs : List ℚ
  info : List (String × ℚ)
  deriving Repr, DecidableEq

/-- Error message raised by ACBridgeLocal.latest_obs when no frame has been
published (the TelemetryUnavailable condition of the spec). -/
def telemetryUnavailableMsg : String :=
  "No telemetry available. Is AC running? Did you call connect()?"

/-- ACBridgeLocal.latest_obs over the cache slot: a pure read that raises a
RuntimeError when the slot was never written, and otherwise returns copies of
the latest frame's observation and info; the cache itself is not modified. -/
def latestObs (cache : Option TelemetryFrame) :
    Except PyError (List ℚ × List (String × ℚ)) :=
  match cache with
  | none => .error (.runtimeError telemetryUnavailableMsg)
  | some f => .ok (f.obs, f.info)

/-- Outcome of one iteration of ACBridgeLocal._poll_telemetry_loop. -/
inductive PollOutcome
  | exitLoop
  | backoff (sleep : ℚ)
  | readErrorLogged (msg : String)
  | published (f : TelemetryFrame)
  deriving Repr, DecidableEq

/-- One iteration of the poller loop body, after the ticker produced
(seq, t_wall, dt, dt_actual): break when the running flag is cleared; when
the source is not connected, sleep dt / 2 and continue; otherwise read and
transform the telemetry (readResult, an error when any exception was raised)
and on success publish the stamped frame into the cache; a failed read is
caught and logged and the cache is left unchanged. -/
def pollIteration (running connected : Bool) (tick : ℤ × ℚ × ℚ × ℚ)
    (readResult : Except String (List ℚ × List (String × ℚ)))
    (cache : Option TelemetryFrame) : PollOutcome × Option TelemetryFrame :=
  if running = false then (.exitLoop, cache)
  else if connected = false then (.backoff (tick.2.2.1 / 2), cache)
  else
    match readResult with
    | .error e => (.readErrorLogged e, cache)
    | .ok (obs, info) =>
        let f : TelemetryFrame :=
          { seq := tick.1, t_wall := tick.2.1, dt := tick.2.2.1
            dt_actual := tick.2.2.2, obs := obs
            info := info ++ [("seq", (tick.1 : ℚ)), ("t_wall", tick.2.1),
              ("dt", tick.2.2.1), ("dt_actual", tick.2.2.2)] }
        (.published f, some f)

/-!
Linearized traces of cache operations.  The slot is guarded by a mutex, so
publishes and reads linearize into a total order; a publish that completed
strictly before a read began is linearized before that read.
-/

/-- One linearized operation on the single-slot cache. -/
inductive CacheOp
  | publishOp (f : TelemetryFrame)
  | readOp
  deriving Repr, DecidableEq

/-- Cache contents after executing a linearized trace from a given initial
slot value: a publish overwrites the slot unconditionally, a read leaves it
unchanged. -/
def cacheAfter : List CacheOp → Option TelemetryFrame → Option TelemetryFrame
  | [], c => c
  | .publishOp f :: rest, _ => cacheAfter rest (some f)
  | .readOp :: rest, c => cacheAfter rest c

/-- Result of a read linearized after the first j operations of a trace that
starts from the empty slot. -/
def readResultAt (ops : List CacheOp) (j : ℕ) : Option TelemetryFrame :=
  cacheAfter (List.take j ops) none

/-- The poller publishes frames stamped with the strictly increasing ticker
sequence, so publish sequence numbers are monotone along the trace. -/
def publishSeqsMono (ops : List CacheOp) : Prop :=
  ∀ (i j : ℕ) (f g : TelemetryFrame), i < j → ops[i]? = some (CacheOp.publishOp f) →
    ops[j]? = some (CacheOp.publishOp g) → f.seq ≤ g.seq

/-!
RealTimeStepper (stepper.py).  The bridge state visible to the stepper is the
cache slot plus the action smoother; the vJoy sink is external.
-/

/-- Combined state touched by RealTimeStepper.step: the bridge's cache slot,
smoother state and smoothing config, the control ticker, the step counter and
the last action. -/
structure StepperState where
  cache : Option TelemetryFrame
  cfg : SmoothingConfig
  smoother : SmootherState
  ticker : TickerState
  step_count : ℕ
  last_action : Option (List ℚ)
  deriving Repr, DecidableEq

/-- RealTimeStepper.step: reject actions with fewer than 3 components with a
ValueError; parse steer, throttle, brake and the optional fourth component as
clutch (default 0); clamp the three validated channels into range (the source
clips them when out of range, which equals an unconditional clip, and does
not validate clutch); apply the action through the smoother; tick the control
ticker at the externally observed time t_now; then read the latest frame,
which raises when the cache is empty.  The smoother, ticker and last_action
updates happen before the read, the step counter increments only on success;
the returned info is the frame info extended with the step metadata. -/
def stepperStep (st : StepperState) (t_now : ℚ) (action : List ℚ) :
    Except PyError (List ℚ × List (String × ℚ)) × StepperState :=
  if action.length < 3 then
    (.error (.valueError "Action must have at least 3 components"), st)
  else
    let steer := npClip (action.getD 0 0) (-1) 1
    let throttle := npClip (action.getD 1 0) 0 1
    let brake := npClip (action.getD 2 0) 0 1
    let clutch := if 3 < action.length then action.getD 3 0 else 0
    let r := smooth st.cfg st.smoother steer throttle brake clutch
    let tk := tickerNext st.ticker t_now
    let st1 := { st with smoother := r.1, ticker := tk.1, last_action := some action }
    match latestObs st.cache with
    | .error e => (.error e, st1)
    | .ok (obs, info) =>
        (.ok (obs, info ++ [("step_seq", (tk.2.1 : ℚ)), ("step_t_wall", tk.2.2.1),
          ("step_dt", tk.2.2.2.1), ("step_dt_actual", tk.2.2.2.2),
          ("step_count", (st.step_count : ℚ))]),
         { st1 with step_count := st.step_count + 1 })

/-- True when a step result is a ValueError. -/
def isValueErrorResult {α : Type} : Except PyError α → Bool
  | .error (.valueError _) => true
  | _ => false

/-!
Concrete fixtures used to instantiate the theorems below.
-/

/-- SmoothingConfig() with all dataclass defaults. -/
def defaultConfig : SmoothingConfig := {}

/-- A SmoothingConfig whose pedal hard range does not contain 0. -/
def cexPedalConfig : SmoothingConfig := { clamp_pedals_min := 1/2 }

/-- The ticker state built by Ticker(hz=1) at construction time 0. -/
def sampleTicker : TickerState :=
  { hz := 1, dt_target := 1, seq := 0, t_start := 0, t_last := 0, t_next := 1
    total_drift := 0, max_jitter := 0 }

/-- A concrete telemetry frame. -/
def sampleFrame : TelemetryFrame :=
  { seq := 5, t_wall := 1, dt := 1/10, dt_actual := 1/10
    obs := [1/2, 0, 1], info := [("speed_kmh", 100)] }

/-- A later concrete telemetry frame. -/
def sampleFrame2 : TelemetryFrame :=
  { seq := 6, t_wall := 11/10, dt := 1/10, dt_actual := 1/10
    obs := [3/5], info := [("speed_kmh", 120)] }

/-- Stepper state before any frame was ever published. -/
def sampleStepperNoFrame : StepperState :=
  { cache := none, cfg := defaultConfig, smoother := SmootherState.init
    ticker := sampleTicker, step_count := 0, last_action := none }

/-- Stepper state whose cache holds a published frame. -/
def sampleStepperWithFrame : StepperState :=
  { sampleStepperNoFrame with cache := some sampleFrame }

/-!
Helper lemmas about the clamp, rate limit and EMA primitives.
-/

/-- A clip into a nonempty interval lands inside the interval. -/
theorem npClip_mem (x lo hi : ℚ) (h : lo ≤ hi) :
    lo ≤ npClip x lo hi ∧ npClip x lo hi ≤ hi := by
  unfold npClip
  exact ⟨le_min h (le_max_left _ _), min_le_left _ _⟩

/-- Clipping a value already inside the interval is the identity. -/
theorem npClip_eq_self (x lo hi : ℚ) (h1 : lo ≤ x) (h2 : x ≤ hi) :
    npClip x lo hi = x := by
  unfold npClip
  rw [max_eq_right h1, min_eq_right h2]

/-- Clipping into an interval containing p never moves the value past p. -/
theorem npClip_between (y p lo hi : ℚ) (hlo : lo ≤ p) (hhi : p ≤ hi) :
    min y p ≤ npClip y lo hi ∧ npClip y lo hi ≤ max y p := by
  unfold npClip
  constructor
  · rcases le_total y lo with h | h
    · have h3 : lo ≤ hi := hlo.trans hhi
      exact ((min_le_left y p).trans h).trans (le_min h3 (le_max_left lo y))
    · exact le_min ((min_le_right y p).trans hhi) ((min_le_left y p).trans (le_max_right lo y))
  · rcases le_total y hi with h | h
    · exact (min_le_right hi (max lo y)).trans
        (max_le (hlo.trans (le_max_right y p)) (le_max_left y p))
    · exact (min_le_left hi (max lo y)).trans (h.trans (le_max_left y p))

/-- The rate-limited step moves at most max_up_rate upward and at most
max_down_rate downward. -/
theorem applyRateLimit_sub_bound (t p up down : ℚ) (hup : 0 ≤ up) (hdn : 0 ≤ down) :
    applyRateLimit t p up down - p ≤ up ∧ p - applyRateLimit t p up down ≤ down := by
  unfold applyRateLimit
  by_cases h : t - p > 0
  · simp only [h, if_true]
    constructor
    · have := min_le_right (t - p) up
      linarith
    · have : (0 : ℚ) ≤ min (t - p) up := le_min (le_of_lt h) hup
      linarith
  · simp only [h, if_false]
    constructor
    · have h1 : t - p ≤ 0 := by linarith [not_lt.mp h]
      have : max (t - p) (-down) ≤ 0 := max_le h1 (by linarith)
      linarith
    · have := le_max_right (t - p) (-down)
      linarith

/-- Rate limiting a target equal to the previous value returns the previous
value, provided the downward limit is nonnegative. -/
theorem applyRateLimit_self (p up down : ℚ) (hdn : 0 ≤ down) :
    applyRateLimit p p up down = p := by
  unfold applyRateLimit
  have h0 : ¬((0 : ℚ) > 0) := lt_irrefl 0
  simp only [sub_self, h0, if_false]
  have h1 : max (0 : ℚ) (-down) = 0 := max_eq_left (by linarith)
  rw [h1, add_zero]

/-- The EMA of a target with itself is itself, for every coefficient. -/
theorem applyEma_self (p a : ℚ) : applyEma p p a = p := by
  unfold applyEma
  ring

/-- The EMA step is the alpha-scaled raw step. -/
theorem applyEma_sub (t p a : ℚ) : applyEma t p a - p = a * (t - p) := by
  unfold applyEma
  ring

/-- Scaling a bounded step by a coefficient in (0, 1] keeps it bounded. -/
theorem scale_step_bound (x up down a : ℚ) (ha0 : 0 < a) (ha1 : a ≤ 1)
    (hup : 0 ≤ up) (hdn : 0 ≤ down) (h1 : x ≤ up) (h2 : -down ≤ x) :
    a * x ≤ up ∧ -down ≤ a * x := by
  constructor
  · rcases le_or_lt 0 x with h | h
    · nlinarith
    · nlinarith
  · rcases le_or_lt 0 x with h | h
    · nlinarith
    · nlinarith

/-- Clipping into an interval containing p preserves step bounds around p. -/
theorem npClip_sub_bound (y p lo hi up down : ℚ) (hlo : lo ≤ p) (hhi : p ≤ hi)
    (hup : 0 ≤ up) (hdn : 0 ≤ down) (hy1 : y - p ≤ up) (hy2 : p - y ≤ down) :
    npClip y lo hi - p ≤ up ∧ p - npClip y lo hi ≤ down := by
  obtain ⟨hmin, hmax⟩ := npClip_between y p lo hi hlo hhi
  constructor
  · have : max y p ≤ up + p := max_le (by linarith) (by linarith)
    linarith
  · have : p - down ≤ min y p := le_min (by linarith) (by linarith)
    linarith

/-- The steer output and stored value of smooth are a clip into the steer
hard range. -/
theorem smooth_prev_steer_clip (cfg : SmoothingConfig) (s : SmootherState)
    (a b c d : ℚ) :
    ∃ y, (smooth cfg s a b c d).1.prev_steer =
      npClip y cfg.clamp_steer_min cfg.clamp_steer_max := ⟨_, rfl⟩

/-- The throttle output and stored value of smooth are a clip into the pedal
hard range. -/
theorem smooth_prev_throttle_clip (cfg : SmoothingConfig) (s : SmootherState)
    (a b c d : ℚ) :
    ∃ y, (smooth cfg s a b c d).1.prev_throttle =
      npClip y cfg.clamp_pedals_min cfg.clamp_pedals_max := ⟨_, rfl⟩

/-- The brake output and stored value of smooth are a clip into the pedal
hard range. -/
theorem smooth_prev_brake_clip (cfg : SmoothingConfig) (s : SmootherState)
    (a b c d : ℚ) :
    ∃ y, (smooth cfg s a b c d).1.prev_brake =
      npClip y cfg.clamp_pedals_min cfg.clamp_pedals_max := ⟨_, rfl⟩

/-- The clutch output and stored value of smooth are a clip into the pedal
hard range. -/
theorem smooth_prev_clutch_clip (cfg : SmoothingConfig) (s : SmootherState)
    (a b c d : ℚ) :
    ∃ y, (smooth cfg s a b c d).1.prev_clutch =
      npClip y cfg.clamp_pedals_min cfg.clamp_pedals_max := ⟨_, rfl⟩

/-- The returned outputs of smooth equal the stored previous values. -/
theorem smooth_out_eq_prev (cfg : SmoothingConfig) (s : SmootherState)
    (a b c d : ℚ) :
    (smooth cfg s a b c d).2 =
      ((smooth cfg s a b c d).1.prev_steer, (smooth cfg s a b c d).1.prev_throttle,
       (smooth cfg s a b c d).1.prev_brake, (smooth cfg s a b c d).1.prev_clutch) := rfl

/-- One channel with rate limiting followed by EMA and post-clamp changes by
at most the applicable rate limit per direction. -/
theorem channel_step_bound_ema (t p lo hi up down alpha : ℚ)
    (hup : 0 ≤ up) (hdn : 0 ≤ down) (ha0 : 0 < alpha) (ha1 : alpha ≤ 1)
    (hlo : lo ≤ p) (hhi : p ≤ hi) :
    npClip (applyEma (applyRateLimit t p up down) p alpha) lo hi - p ≤ up ∧
    p - npClip (applyEma (applyRateLimit t p up down) p alpha) lo hi ≤ down := by
  obtain ⟨h1, h2⟩ := applyRateLimit_sub_bound t p up down hup hdn
  have he := applyEma_sub (applyRateLimit t p up down) p alpha
  obtain ⟨h3, h4⟩ := scale_step_bound (applyRateLimit t p up down - p) up down alpha
    ha0 ha1 hup hdn h1 (by linarith)
  exact npClip_sub_bound _ p lo hi up down hlo hhi hup hdn
    (by rw [he]; exact h3) (by linarith [he, h4])

/-- One channel with rate limiting and post-clamp but no EMA changes by at
most the applicable rate limit per direction. -/
theorem channel_step_bound_noema (t p lo hi up down : ℚ)
    (hup : 0 ≤ up) (hdn : 0 ≤ down) (hlo : lo ≤ p) (hhi : p ≤ hi) :
    npClip (applyRateLimit t p up down) lo hi - p ≤ up ∧
    p - npClip (applyRateLimit t p up down) lo hi ≤ down := by
  obtain ⟨h1, h2⟩ := applyRateLimit_sub_bound t p up down hup hdn
  exact npClip_sub_bound _ p lo hi up down hlo hhi hup hdn h1 h2

/-- C2 counterexample: the claim quantifies over every SmoothingConfig, but
for a config whose pedal hard range is [1/2, 1] the freshly constructed
previous throttle output 0 lies strictly below the range, so the conjunct
that the initial previous_output is already within range fails. -/
theorem C2_range_invariant_counterexample :
    SmootherState.init.prev_throttle < cexPedalConfig.clamp_pedals_min ∧
    ¬(cexPedalConfig.clamp_pedals_min ≤ SmootherState.init.prev_throttle ∧
      SmootherState.init.prev_throttle ≤ cexPedalConfig.clamp_pedals_max) := by
  constructor
  · norm_num [SmootherState.init, cexPedalConfig]
  · norm_num [SmootherState.init, cexPedalConfig]

/-- C2 amended: for every SmoothingConfig whose steer and pedal hard ranges
contain 0 (true of the dataclass defaults and of every preset), the initial
previous_output 0 of every channel is within its hard range, and after every
call to smooth, with arbitrary previous state and arbitrary rational targets,
the returned outputs equal the stored previous_output values and lie within
the channel hard ranges, regardless of the rate-limiting and EMA flags. -/
theorem C2_range_invariant_amended (cfg : SmoothingConfig)
    (h1 : cfg.clamp_steer_min ≤ 0) (h2 : 0 ≤ cfg.clamp_steer_max)
    (h3 : cfg.clamp_pedals_min ≤ 0) (h4 : 0 ≤ cfg.clamp_pedals_max) :
    ((cfg.clamp_steer_min ≤ SmootherState.init.prev_steer ∧
        SmootherState.init.prev_steer ≤ cfg.clamp_steer_max) ∧
      (cfg.clamp_pedals_min ≤ SmootherState.init.prev_throttle ∧
        SmootherState.init.prev_throttle ≤ cfg.clamp_pedals_max) ∧
      (cfg.clamp_pedals_min ≤ SmootherState.init.prev_brake ∧
        SmootherState.init.prev_brake ≤ cfg.clamp_pedals_max) ∧
      (cfg.clamp_pedals_min ≤ SmootherState.init.prev_clutch ∧
        SmootherState.init.prev_clutch ≤ cfg.clamp_pedals_max)) ∧
    ∀ (s : SmootherState) (a b c d : ℚ),
      (smooth cfg s a b c d).2 =
        ((smooth cfg s a b c d).1.prev_steer, (smooth cfg s a b c d).1.prev_throttle,
         (smooth cfg s a b c d).1.prev_brake, (smooth cfg s a b c d).1.prev_clutch) ∧
      (cfg.clamp_steer_min ≤ (smooth cfg s a b c d).1.prev_steer ∧
        (smooth cfg s a b c d).1.prev_steer ≤ cfg.clamp_steer_max) ∧
      (cfg.clamp_pedals_min ≤ (smooth cfg s a b c d).1.prev_throttle ∧
        (smooth cfg s a b c d).1.prev_throttle ≤ cfg.clamp_pedals_max) ∧
      (cfg.clamp_pedals_min ≤ (smooth cfg s a b c d).1.prev_brake ∧
        (smooth cfg s a b c d).1.prev_brake ≤ cfg.clamp_pedals_max) ∧
      (cfg.clamp_pedals_min ≤ (smooth cfg s a b c d).1.prev_clutch ∧
        (smooth cfg s a b c d).1.prev_clutch ≤ cfg.clamp_pedals_max) := by
  have hs : cfg.clamp_steer_min ≤ cfg.clamp_steer_max := h1.trans h2
  have hp : cfg.clamp_pedals_min ≤ cfg.clamp_pedals_max := h3.trans h4
  refine ⟨⟨⟨h1, h2⟩, ⟨h3, h4⟩, ⟨h3, h4⟩, ⟨h3, h4⟩⟩, fun s a b c d => ?_⟩
  obtain ⟨y1, hy1⟩ := smooth_prev_steer_clip cfg s a b c d
  obtain ⟨y2, hy2⟩ := smooth_prev_throttle_clip cfg s a b c d
  obtain ⟨y3, hy3⟩ := smooth_prev_brake_clip cfg s a b c d
  obtain ⟨y4, hy4⟩ := smooth_prev_clutch_clip cfg s a b c d
  refine ⟨smooth_out_eq_prev cfg s a b c d, ?_, ?_, ?_, ?_⟩
  · rw [hy1]; exact npClip_mem y1 _ _ hs
  · rw [hy2]; exact npClip_mem y2 _ _ hp
  · rw [hy3]; exact npClip_mem y3 _ _ hp
  · rw [hy4]; exact npClip_mem y4 _ _ hp

/-- C2 witness: the amended invariant instantiated at the default config,
the fresh state and the out-of-range targets (5, 5, -3, 2). -/
theorem C2_range_invariant_witness :
    defaultConfig.clamp_steer_min ≤
      (smooth defaultConfig SmootherState.init 5 5 (-3) 2).1.prev_steer ∧
    (smooth defaultConfig SmootherState.init 5 5 (-3) 2).1.prev_steer ≤
      defaultConfig.clamp_steer_max ∧
    defaultConfig.clamp_pedals_min ≤
      (smooth defaultConfig SmootherState.init 5 5 (-3) 2).1.prev_brake := by
  have h := C2_range_invariant_amended defaultConfig (by norm_num [defaultConfig])
    (by norm_num [defaultConfig]) (by norm_num [defaultConfig]) (by norm_num [defaultConfig])
  obtain ⟨-, h2⟩ := h
  obtain ⟨-, hsteer, -, hbrake, -⟩ := h2 SmootherState.init 5 5 (-3) 2
  exact ⟨hsteer.1, hsteer.2, hbrake.1⟩

/-- C3 counterexample: after one smooth call from the fresh state, reset does
not zero the step statistics: the step count stays 1 and the accumulated
steer delta stays 9/100, so the state after reset differs from the freshly
constructed state. -/
theorem C3_reset_counterexample :
    (smootherReset (smooth get_moderate_config SmootherState.init 1 0 0 0).1).step_count = 1 ∧
    (smootherReset (smooth get_moderate_config SmootherState.init 1 0 0 0).1).total_steer_delta
      = 9/100 ∧
    smootherReset (smooth get_moderate_config SmootherState.init 1 0 0 0).1 ≠
      SmootherState.init := by
  refine ⟨?_, ?_, ?_⟩
  · simp [smootherReset, smooth, SmootherState.init]
  · norm_num [smootherReset, smooth, npClip, applyRateLimit, applyEma,
      get_moderate_config, SmootherState.init]
  · intro h
    have hc := congrArg SmootherState.step_count h
    simp [smootherReset, smooth, SmootherState.init] at hc

/-- C3 amended: reset sets previous_output for every channel to the neutral
value 0, matching the freshly constructed previous outputs, but it leaves the
step statistics (step_count and the per-channel accumulated deltas)
untouched, so the state equals the fresh state only in the previous_output
fields. -/
theorem C3_reset_amended (s : SmootherState) :
    (smootherReset s).prev_steer = SmootherState.init.prev_steer ∧
    (smootherReset s).prev_throttle = SmootherState.init.prev_throttle ∧
    (smootherReset s).prev_brake = SmootherState.init.prev_brake ∧
    (smootherReset s).prev_clutch = SmootherState.init.prev_clutch ∧
    (smootherReset s).prev_steer = 0 ∧
    (smootherReset s).prev_throttle = 0 ∧
    (smootherReset s).prev_brake = 0 ∧
    (smootherReset s).prev_clutch = 0 ∧
    (smootherReset s).step_count = s.step_count ∧
    (smootherReset s).total_steer_delta = s.total_steer_delta ∧
    (smootherReset s).total_throttle_delta = s.total_throttle_delta ∧
    (smootherReset s).total_brake_delta = s.total_brake_delta := by
  refine ⟨rfl, rfl, rfl, rfl, rfl, rfl, rfl, rfl, rfl, rfl, rfl, rfl⟩

/-- C7 counterexample: from rest with the moderate preset, repeated calls of
smooth(1, 0, 0, 0) gain 0.6 times 0.15 = 0.09 of steer per call, so the steer
output of the seventh call is exactly 63/100, which is not at least the
claimed lower bound 1 times 0.15 times 7 = 1.05 (a bound that together with
the upper bound 1 is unsatisfiable). -/
theorem C7_moderate_trace_counterexample :
    (smooth get_moderate_config
        (smoothN get_moderate_config 1 0 0 0 6 SmootherState.init) 1 0 0 0).2.1
      = 63/100 ∧
    (smoothN get_moderate_config 1 0 0 0 7 SmootherState.init).prev_steer = 63/100 ∧
    ¬((1 : ℚ) * (15/100) * 7 ≤ 63/100) := by
  refine ⟨?_, ?_, by norm_num⟩
  · norm_num [smoothN, smooth, npClip, applyRateLimit, applyEma,
      get_moderate_config, SmootherState.init]
  · norm_num [smoothN, smooth, npClip, applyRateLimit, applyEma,
      get_moderate_config, SmootherState.init]

/-- C7 amended: from rest with the moderate preset configuration the steer
output after exactly 7 calls of smooth(1, 0, 0, 0) is exactly 63/100 under
the documented order of operations (pre-clamp, rate limit, EMA, post-clamp);
it is at most the cumulative rate-limit bound 0.15 times 7 and at most 1, and
it is still strictly below the target 1. -/
theorem C7_moderate_trace_amended :
    (smooth get_moderate_config
        (smoothN get_moderate_config 1 0 0 0 6 SmootherState.init) 1 0 0 0).2.1
      = 63/100 ∧
    (63 : ℚ)/100 ≤ (1 : ℚ) * (15/100) * 7 ∧
    (63 : ℚ)/100 ≤ 1 ∧
    (smoothN get_moderate_config 1 0 0 0 7 SmootherState.init).prev_steer < 1 := by
  refine ⟨?_, by norm_num, by norm_num, ?_⟩
  · norm_num [smoothN, smooth, npClip, applyRateLimit, applyEma,
      get_moderate_config, SmootherState.init]
  · norm_num [smoothN, smooth, npClip, applyRateLimit, applyEma,
      get_moderate_config, SmootherState.init]

/-- C5: with rate limiting enabled, nonnegative per-direction limits, EMA
coefficients in (0, 1] (whether or not EMA is enabled) and the stored
previous outputs inside the hard ranges (which holds in every reachable
state), a single smooth call changes each channel by at most the applicable
limit: at most max_up_rate upward and max_down_rate downward, where steer and
clutch use their single symmetric delta for both directions. -/
theorem C5_rate_limit_bound (cfg : SmoothingConfig) (s : SmootherState) (a b c d : ℚ)
    (hrl : cfg.enable_rate_limiting = true)
    (h1 : 0 ≤ cfg.max_steer_delta) (h2 : 0 ≤ cfg.max_throttle_up)
    (h3 : 0 ≤ cfg.max_throttle_down) (h4 : 0 ≤ cfg.max_brake_up)
    (h5 : 0 ≤ cfg.max_brake_down) (h6 : 0 ≤ cfg.max_clutch_delta)
    (ha1 : 0 < cfg.steer_alpha) (ha2 : cfg.steer_alpha ≤ 1)
    (ha3 : 0 < cfg.throttle_alpha) (ha4 : cfg.throttle_alpha ≤ 1)
    (ha5 : 0 < cfg.brake_alpha) (ha6 : cfg.brake_alpha ≤ 1)
    (ha7 : 0 < cfg.clutch_alpha) (ha8 : cfg.clutch_alpha ≤ 1)
    (hp1 : cfg.clamp_steer_min ≤ s.prev_steer) (hp2 : s.prev_steer ≤ cfg.clamp_steer_max)
    (hp3 : cfg.clamp_pedals_min ≤ s.prev_throttle)
    (hp4 : s.prev_throttle ≤ cfg.clamp_pedals_max)
    (hp5 : cfg.clamp_pedals_min ≤ s.prev_brake) (hp6 : s.prev_brake ≤ cfg.clamp_pedals_max)
    (hp7 : cfg.clamp_pedals_min ≤ s.prev_clutch)
    (hp8 : s.prev_clutch ≤ cfg.clamp_pedals_max) :
    ((smooth cfg s a b c d).2.1 - s.prev_steer ≤ cfg.max_steer_delta ∧
      s.prev_steer - (smooth cfg s a b c d).2.1 ≤ cfg.max_steer_delta) ∧
    ((smooth cfg s a b c d).2.2.1 - s.prev_throttle ≤ cfg.max_throttle_up ∧
      s.prev_throttle - (smooth cfg s a b c d).2.2.1 ≤ cfg.max_throttle_down) ∧
    ((smooth cfg s a b c d).2.2.2.1 - s.prev_brake ≤ cfg.max_brake_up ∧
      s.prev_brake - (smooth cfg s a b c d).2.2.2.1 ≤ cfg.max_brake_down) ∧
    ((smooth cfg s a b c d).2.2.2.2 - s.prev_clutch ≤ cfg.max_clutch_delta ∧
      s.prev_clutch - (smooth cfg s a b c d).2.2.2.2 ≤ cfg.max_clutch_delta) := by
  cases hema : cfg.enable_ema_smoothing
  · simp only [smooth, hrl, hema, if_true, Bool.false_eq_true, if_false]
    exact ⟨channel_step_bound_noema _ _ _ _ _ _ h1 h1 hp1 hp2,
      channel_step_bound_noema _ _ _ _ _ _ h2 h3 hp3 hp4,
      channel_step_bound_noema _ _ _ _ _ _ h4 h5 hp5 hp6,
      channel_step_bound_noema _ _ _ _ _ _ h6 h6 hp7 hp8⟩
  · simp only [smooth, hrl, hema, if_true]
    exact ⟨channel_step_bound_ema _ _ _ _ _ _ _ h1 h1 ha1 ha2 hp1 hp2,
      channel_step_bound_ema _ _ _ _ _ _ _ h2 h3 ha3 ha4 hp3 hp4,
      channel_step_bound_ema _ _ _ _ _ _ _ h4 h5 ha5 ha6 hp5 hp6,
      channel_step_bound_ema _ _ _ _ _ _ _ h6 h6 ha7 ha8 hp7 hp8⟩

/-- C5 witness: the per-call rate bound instantiated at the default config,
the fresh state and the step targets (1, 1, 1, 1). -/
theorem C5_rate_limit_bound_witness :
    ((smooth defaultConfig SmootherState.init 1 1 1 1).2.1 - SmootherState.init.prev_steer ≤
        defaultConfig.max_steer_delta ∧
      SmootherState.init.prev_steer - (smooth defaultConfig SmootherState.init 1 1 1 1).2.1 ≤
        defaultConfig.max_steer_delta) ∧
    ((smooth defaultConfig SmootherState.init 1 1 1 1).2.2.1 -
        SmootherState.init.prev_throttle ≤ defaultConfig.max_throttle_up ∧
      SmootherState.init.prev_throttle -
        (smooth defaultConfig SmootherState.init 1 1 1 1).2.2.1 ≤
          defaultConfig.max_throttle_down) := by
  have h := C5_rate_limit_bound defaultConfig SmootherState.init 1 1 1 1 rfl
    (by norm_num [defaultConfig]) (by norm_num [defaultConfig]) (by norm_num [defaultConfig])
    (by norm_num [defaultConfig]) (by norm_num [defaultConfig]) (by norm_num [defaultConfig])
    (by norm_num [defaultConfig]) (by norm_num [defaultConfig]) (by norm_num [defaultConfig])
    (by norm_num [defaultConfig]) (by norm_num [defaultConfig]) (by norm_num [defaultConfig])
    (by norm_num [defaultConfig]) (by norm_num [defaultConfig])
    (by norm_num [defaultConfig, SmootherState.init])
    (by norm_num [defaultConfig, SmootherState.init])
    (by norm_num [defaultConfig, SmootherState.init])
    (by norm_num [defaultConfig, SmootherState.init])
    (by norm_num [defaultConfig, SmootherState.init])
    (by norm_num [defaultConfig, SmootherState.init])
    (by norm_num [defaultConfig, SmootherState.init])
    (by norm_num [defaultConfig, SmootherState.init])
  exact ⟨h.1, h.2.1⟩

/-- A steer target equal to the in-range stored previous steer output passes
through every enabled phase unchanged. -/
theorem smooth_steer_fixed (cfg : SmoothingConfig) (s : SmootherState) (t b c d : ℚ)
    (hd : 0 ≤ cfg.max_steer_delta) (hp : s.prev_steer = t)
    (hlo : cfg.clamp_steer_min ≤ t) (hhi : t ≤ cfg.clamp_steer_max) :
    (smooth cfg s t b c d).2.1 = t ∧ (smooth cfg s t b c d).1.prev_steer = t := by
  have hc : npClip t cfg.clamp_steer_min cfg.clamp_steer_max = t :=
    npClip_eq_self _ _ _ hlo hhi
  cases hrl : cfg.enable_rate_limiting <;> cases hema : cfg.enable_ema_smoothing <;>
    simp [smooth, hrl, hema, hc, hp, applyRateLimit_self t _ _ hd, applyEma_self]

/-- A throttle target equal to the in-range stored previous throttle output
passes through every enabled phase unchanged. -/
theorem smooth_throttle_fixed (cfg : SmoothingConfig) (s : SmootherState) (a t c d : ℚ)
    (hd : 0 ≤ cfg.max_throttle_down) (hp : s.prev_throttle = t)
    (hlo : cfg.clamp_pedals_min ≤ t) (hhi : t ≤ cfg.clamp_pedals_max) :
    (smooth cfg s a t c d).2.2.1 = t ∧ (smooth cfg s a t c d).1.prev_throttle = t := by
  have hc : npClip t cfg.clamp_pedals_min cfg.clamp_pedals_max = t :=
    npClip_eq_self _ _ _ hlo hhi
  cases hrl : cfg.enable_rate_limiting <;> cases hema : cfg.enable_ema_smoothing <;>
    simp [smooth, hrl, hema, hc, hp, applyRateLimit_self t _ _ hd, applyEma_self]

/-- A brake target equal to the in-range stored previous brake output passes
through every enabled phase unchanged. -/
theorem smooth_brake_fixed (cfg : SmoothingConfig) (s : SmootherState) (a b t d : ℚ)
    (hd : 0 ≤ cfg.max_brake_down) (hp : s.prev_brake = t)
    (hlo : cfg.clamp_pedals_min ≤ t) (hhi : t ≤ cfg.clamp_pedals_max) :
    (smooth cfg s a b t d).2.2.2.1 = t ∧ (smooth cfg s a b t d).1.prev_brake = t := by
  have hc : npClip t cfg.clamp_pedals_min cfg.clamp_pedals_max = t :=
    npClip_eq_self _ _ _ hlo hhi
  cases hrl : cfg.enable_rate_limiting <;> cases hema : cfg.enable_ema_smoothing <;>
    simp [smooth, hrl, hema, hc, hp, applyRateLimit_self t _ _ hd, applyEma_self]

/-- A clutch target equal to the in-range stored previous clutch output
passes through every enabled phase unchanged. -/
theorem smooth_clutch_fixed (cfg : SmoothingConfig) (s : SmootherState) (a b c t : ℚ)
    (hd : 0 ≤ cfg.max_clutch_delta) (hp : s.prev_clutch = t)
    (hlo : cfg.clamp_pedals_min ≤ t) (hhi : t ≤ cfg.clamp_pedals_max) :
    (smooth cfg s a b c t).2.2.2.2 = t ∧ (smooth cfg s a b c t).1.prev_clutch = t := by
  have hc : npClip t cfg.clamp_pedals_min cfg.clamp_pedals_max = t :=
    npClip_eq_self _ _ _ hlo hhi
  cases hrl : cfg.enable_rate_limiting <;> cases hema : cfg.enable_ema_smoothing <;>
    simp [smooth, hrl, hema, hc, hp, applyRateLimit_self t _ _ hd, applyEma_self]

/-- C6: per channel, for every configuration whose downward rate limit of
that channel is nonnegative, if the stored previous output equals an
in-hard-range target then every number of repeated smooth calls with that
constant target keeps the stored previous output at the target and every
such call returns exactly the target, for arbitrary targets on the other
channels (idempotence at convergence). -/
theorem C6_idempotence (cfg : SmoothingConfig) (s : SmootherState) (st th br cl : ℚ) :
    (0 ≤ cfg.max_steer_delta → s.prev_steer = st → cfg.clamp_steer_min ≤ st →
      st ≤ cfg.clamp_steer_max → ∀ n : ℕ,
        (smoothN cfg st th br cl n s).prev_steer = st ∧
        (smooth cfg (smoothN cfg st th br cl n s) st th br cl).2.1 = st) ∧
    (0 ≤ cfg.max_throttle_down → s.prev_throttle = th → cfg.clamp_pedals_min ≤ th →
      th ≤ cfg.clamp_pedals_max → ∀ n : ℕ,
        (smoothN cfg st th br cl n s).prev_throttle = th ∧
        (smooth cfg (smoothN cfg st th br cl n s) st th br cl).2.2.1 = th) ∧
    (0 ≤ cfg.max_brake_down → s.prev_brake = br → cfg.clamp_pedals_min ≤ br →
      br ≤ cfg.clamp_pedals_max → ∀ n : ℕ,
        (smoothN cfg st th br cl n s).prev_brake = br ∧
        (smooth cfg (smoothN cfg st th br cl n s) st th br cl).2.2.2.1 = br) ∧
    (0 ≤ cfg.max_clutch_delta → s.prev_clutch = cl → cfg.clamp_pedals_min ≤ cl →
      cl ≤ cfg.clamp_pedals_max → ∀ n : ℕ,
        (smoothN cfg st th br cl n s).prev_clutch = cl ∧
        (smooth cfg (smoothN cfg st th br cl n s) st th br cl).2.2.2.2 = cl) := by
  refine ⟨fun hd hp hlo hhi => ?_, fun hd hp hlo hhi => ?_,
    fun hd hp hlo hhi => ?_, fun hd hp hlo hhi => ?_⟩
  · intro n
    induction n generalizing s with
    | zero =>
        exact ⟨hp, (smooth_steer_fixed cfg s st th br cl hd hp hlo hhi).1⟩
    | succ n ih =>
        exact ih _ (smooth_steer_fixed cfg s st th br cl hd hp hlo hhi).2
  · intro n
    induction n generalizing s with
    | zero =>
        exact ⟨hp, (smooth_throttle_fixed cfg s st th br cl hd hp hlo hhi).1⟩
    | succ n ih =>
        exact ih _ (smooth_throttle_fixed cfg s st th br cl hd hp hlo hhi).2
  · intro n
    induction n generalizing s with
    | zero =>
        exact ⟨hp, (smooth_brake_fixed cfg s st th br cl hd hp hlo hhi).1⟩
    | succ n ih =>
        exact ih _ (smooth_brake_fixed cfg s st th br cl hd hp hlo hhi).2
  · intro n
    induction n generalizing s with
    | zero =>
        exact ⟨hp, (smooth_clutch_fixed cfg s st th br cl hd hp hlo hhi).1⟩
    | succ n ih =>
        exact ih _ (smooth_clutch_fixed cfg s st th br cl hd hp hlo hhi).2

/-- C6 witness: idempotence instantiated at the default config, the fresh
state (previous steer 0), the in-range constant target 0 and three repeated
calls. -/
theorem C6_idempotence_witness :
    (smoothN defaultConfig 0 0 0 0 3 SmootherState.init).prev_steer = 0 ∧
    (smooth defaultConfig (smoothN defaultConfig 0 0 0 0 3 SmootherState.init) 0 0 0 0).2.1
      = 0 := by
  have h := (C6_idempotence defaultConfig SmootherState.init 0 0 0 0).1
    (by norm_num [defaultConfig]) (by norm_num [SmootherState.init])
    (by norm_num [defaultConfig]) (by norm_num [defaultConfig]) 3
  exact h

/-- C1 counterexample: for the ticker constructed with hz 1 and start
sequence 0 at time 0, after the first tick completes at time 1 the next call
will emit sequence 1 and wait for the stored deadline 1, while the claimed
formula start_time + (sequence + 1) * target_interval gives 2: the code
computes the new deadline with the sequence before its increment, so the
deadline a tick waits for is start_time + sequence * target_interval, not
start_time + (sequence + 1) * target_interval. -/
theorem C1_deadline_counterexample :
    (tickerInit 1 0 0 = Except.ok sampleTicker ∧
      (tickerNext sampleTicker 1).1.seq = 1 ∧
      deadlineWaited ((tickerNext sampleTicker 1).1) = 1 ∧
      (tickerNext sampleTicker 1).1.t_start +
        (((tickerNext sampleTicker 1).1.seq : ℚ) + 1) * (tickerNext sampleTicker 1).1.dt_target
        = 2 ∧
      (1 : ℚ) ≠ 2) ∧
    (tickerInit 1 5 0 = Except.ok { sampleTicker with seq := 5 } ∧
      deadlineWaited { sampleTicker with seq := 5 } = 1 ∧
      ({ sampleTicker with seq := 5 } : TickerState).t_start +
        ((({ sampleTicker with seq := 5 } : TickerState).seq : ℚ) + 1) *
          ({ sampleTicker with seq := 5 } : TickerState).dt_target = 6 ∧
      (1 : ℚ) ≠ 6) := by
  refine ⟨⟨?_, ?_, ?_, ?_, by norm_num⟩, ⟨?_, ?_, ?_, by norm_num⟩⟩
  · norm_num [tickerInit, sampleTicker]
  · norm_num [tickerNext, sampleTicker]
  · norm_num [tickerNext, deadlineWaited, sampleTicker]
  · norm_num [tickerNext, sampleTicker]
  · norm_num [tickerInit, sampleTicker]
  · norm_num [deadlineWaited, sampleTicker]
  · norm_num [sampleTicker]

/-- C1 amended: the next due time computed during tick() equals
start_time + (sequence + 1) * target_interval where sequence is the sequence
emitted by that very tick (the pre-increment counter), so the stored deadline
after the tick equals start_time + new_sequence * target_interval; it is a
function only of the fixed start time, the tick counter and the target
interval, independent of the observed wake time, and construction and
reset(new_start_sequence) anchor the first deadline at
start_time + target_interval for every start sequence. -/
theorem C1_deadline_amended (s : TickerState) (t t' : ℚ) :
    (tickerNext s t).2.1 = s.seq ∧
    (tickerNext s t).1.t_next = s.t_start + (((tickerNext s t).2.1 : ℚ) + 1) * s.dt_target ∧
    (tickerNext s t).1.t_next = s.t_start + ((tickerNext s t).1.seq : ℚ) * s.dt_target ∧
    (tickerNext s t).1.t_next = (tickerNext s t').1.t_next ∧
    (tickerNext s t).1.t_start = s.t_start ∧
    (tickerNext s t).1.dt_target = s.dt_target ∧
    (∀ q : ℤ, (tickerReset s q t).t_next = t + s.dt_target ∧
      (tickerReset s q t).seq = q ∧ (tickerReset s q t).t_start = t) ∧
    (∀ (hz sq : ℤ) (t0 : ℚ) (s0 : TickerState), tickerInit hz sq t0 = Except.ok s0 →
      s0.t_next = t0 + s0.dt_target ∧ s0.t_start = t0 ∧ s0.seq = sq) := by
  refine ⟨rfl, by simp [tickerNext], ?_, rfl, rfl, rfl, fun q => ⟨rfl, rfl, rfl⟩, ?_⟩
  · simp only [tickerNext]
    push_cast
    ring
  · intro hz sq t0 s0 h
    unfold tickerInit at h
    by_cases hhz : hz ≤ 0
    · simp [hhz] at h
    · simp only [hhz, if_false] at h
      obtain rfl : _ = s0 := Except.ok.inj h
      exact ⟨rfl, rfl, rfl⟩

/-- C1 witness: the amended deadline law instantiated at the sample ticker
state with observed wake times 1 and 7: the deadline is the same for both,
and the state built by tickerInit has its first deadline one interval after
its anchor. -/
theorem C1_deadline_amended_witness :
    (tickerNext sampleTicker 1).1.t_next = (tickerNext sampleTicker 7).1.t_next ∧
    sampleTicker.t_next = 0 + sampleTicker.dt_target := by
  have h := C1_deadline_amended sampleTicker 1 7
  refine ⟨h.2.2.2.1, ?_⟩
  have h2 := h.2.2.2.2.2.2.2 1 0 0 sampleTicker (by simp [tickerInit, sampleTicker])
  exact h2.2.1 ▸ h2.1

/-- C4: reading the cache before any frame was ever published yields the
explicit RuntimeError with the no-telemetry message (the spec's
TelemetryUnavailable), never a default frame; a step whose action passes the
length check fails with the same error when no frame was published; and once
a frame is in the cache the read returns exactly that frame's observation and
info. -/
theorem C4_unavailable_before_first_publish :
    latestObs none = Except.error (PyError.runtimeError telemetryUnavailableMsg) ∧
    (∀ f : TelemetryFrame, latestObs (some f) = Except.ok (f.obs, f.info)) ∧
    (∀ (st : StepperState) (t : ℚ) (a : List ℚ), st.cache = none → 3 ≤ a.length →
      (stepperStep st t a).1 = Except.error (PyError.runtimeError telemetryUnavailableMsg)) := by
  refine ⟨rfl, fun f => rfl, fun st t a hc ha => ?_⟩
  rw [stepperStep, if_neg (by omega)]
  simp [latestObs, hc]

/-- C4 witness: a step from the stepper state that never saw a publish fails
with the no-telemetry RuntimeError, and the read after a publish of the
sample frame returns its observation and info. -/
theorem C4_unavailable_witness :
    (stepperStep sampleStepperNoFrame 1 [1, 0, 0]).1 =
      Except.error (PyError.runtimeError telemetryUnavailableMsg) ∧
    latestObs (some sampleFrame) = Except.ok (sampleFrame.obs, sampleFrame.info) := by
  have h := C4_unavailable_before_first_publish
  exact ⟨h.2.2 sampleStepperNoFrame 1 [1, 0, 0] rfl (by decide), h.2.1 sampleFrame⟩

/-- C8: the poller loop body is a total function of its inputs, so no read or
transform error propagates out of an iteration; the loop exits only when the
running flag is cleared; a tick with the source not connected sleeps half the
target interval and leaves the cache unchanged; a tick whose read raises is
caught and logged with the cache unchanged; and a successful read publishes
the frame stamped with the tick sequence. -/
theorem C8_poller_survives_bad_reads (running connected : Bool) (tick : ℤ × ℚ × ℚ × ℚ)
    (readResult : Except String (List ℚ × List (String × ℚ)))
    (cache : Option TelemetryFrame) :
    ((pollIteration running connected tick readResult cache).1 = PollOutcome.exitLoop ↔
      running = false) ∧
    (running = true → connected = false →
      pollIteration running connected tick readResult cache =
        (PollOutcome.backoff (tick.2.2.1 / 2), cache)) ∧
    (running = true → connected = true → ∀ msg, readResult = Except.error msg →
      pollIteration running connected tick readResult cache =
        (PollOutcome.readErrorLogged msg, cache)) ∧
    (running = true → connected = true →
      ∀ obs info, readResult = Except.ok (obs, info) →
        ∃ f, pollIteration running connected tick readResult cache =
          (PollOutcome.published f, some f) ∧ f.seq = tick.1) := by
  cases running
  · simp [pollIteration]
  · cases connected
    · simp [pollIteration]
    · cases readResult with
      | error e =>
          refine ⟨by simp [pollIteration], by simp, ?_, by simp⟩
          intro _ _ msg hmsg
          obtain rfl := Except.error.inj hmsg
          simp [pollIteration]
      | ok p =>
          obtain ⟨obs, info⟩ := p
          refine ⟨by simp [pollIteration], by simp, by simp, ?_⟩
          intro _ _ obs2 info2 hok
          obtain ⟨rfl, rfl⟩ := Prod.mk.injEq .. ▸ Except.ok.inj hok
          exact ⟨_, rfl, rfl⟩

/-- C8 witness: with the poller running, a not-connected tick of target
interval 1/10 backs off by 1/20 leaving the empty cache unchanged, and a
failed read on a connected tick is logged leaving the cache unchanged. -/
theorem C8_poller_survives_witness :
    pollIteration true false (0, 0, 1/10, 1/10) (Except.error "shm read failed") none =
      (PollOutcome.backoff ((1/10 : ℚ) / 2), none) ∧
    pollIteration true true (0, 0, 1/10, 1/10) (Except.error "shm read failed") none =
      (PollOutcome.readErrorLogged "shm read failed", none) := by
  have h1 := C8_poller_survives_bad_reads true false (0, 0, 1/10, 1/10)
    (Except.error "shm read failed") none
  have h2 := C8_poller_survives_bad_reads true true (0, 0, 1/10, 1/10)
    (Except.error "shm read failed") none
  exact ⟨h1.2.1 rfl rfl, h2.2.2.1 rfl rfl "shm read failed" rfl⟩

/-- Running a trace split in two runs the second half from the first half's
final cache. -/
theorem cacheAfter_append (l1 l2 : List CacheOp) (c : Option TelemetryFrame) :
    cacheAfter (l1 ++ l2) c = cacheAfter l2 (cacheAfter l1 c) := by
  induction l1 generalizing c with
  | nil => rfl
  | cons op rest ih => cases op <;> simp [cacheAfter, ih]

/-- If some publish occurs in a trace then the final cache holds the frame of
a publish at the same or a later position. -/
theorem cacheAfter_publish_exists (l : List CacheOp) :
    ∀ (c : Option TelemetryFrame) (i : ℕ) (f : TelemetryFrame),
      l[i]? = some (CacheOp.publishOp f) →
      ∃ (k : ℕ) (g : TelemetryFrame), i ≤ k ∧ l[k]? = some (CacheOp.publishOp g) ∧
        cacheAfter l c = some g := by
  induction l using List.reverseRecOn with
  | nil => intro c i f h; simp at h
  | append_singleton l op ih =>
      intro c i f h
      rcases lt_or_ge i l.length with hi | hi
      · have hl : l[i]? = some (CacheOp.publishOp f) := by
          rw [List.getElem?_append, if_pos hi] at h
          exact h
        cases op with
        | publishOp g' =>
            refine ⟨l.length, g', le_of_lt hi, ?_, ?_⟩
            · simp [List.getElem?_concat_length]
            · rw [cacheAfter_append]
              rfl
        | readOp =>
            obtain ⟨k, g, hik, hk, hc⟩ := ih c i f hl
            have hkl : k < l.length := by
              by_contra hcon
              rw [List.getElem?_eq_none (le_of_not_lt hcon)] at hk
              cases hk
            refine ⟨k, g, hik, ?_, ?_⟩
            · rw [List.getElem?_append, if_pos hkl]
              exact hk
            · rw [cacheAfter_append]
              exact hc
      · have hlen : i < (l ++ [op]).length := by
          by_contra hcon
          rw [List.getElem?_eq_none (le_of_not_lt hcon)] at h
          cases h
        have hieq : i = l.length := by
          simp only [List.length_append, List.length_singleton] at hlen
          omega
        subst hieq
        rw [List.getElem?_concat_length] at h
        obtain rfl := Option.some.inj h
        refine ⟨l.length, f, le_refl _, ?_, ?_⟩
        · rw [List.getElem?_concat_length]
        · rw [cacheAfter_append]
          rfl

/-- C9: for every linearized trace of publishes and reads on the mutex
guarded single-slot cache in which publish sequence numbers are monotone
(as the poller's ticker-stamped publishes are), a read linearized after the
first j operations returns a frame whose sequence is at least the sequence of
every publish that completed before the read began. -/
theorem C9_latest_wins (ops : List CacheOp) (i j : ℕ) (f : TelemetryFrame)
    (hmono : publishSeqsMono ops) (hij : i < j)
    (hi : ops[i]? = some (CacheOp.publishOp f)) :
    ∃ g, readResultAt ops j = some g ∧ f.seq ≤ g.seq := by
  have hil : i < ops.length := by
    by_contra hcon
    rw [List.getElem?_eq_none (le_of_not_lt hcon)] at hi
    cases hi
  have hi' : (List.take j ops)[i]? = some (CacheOp.publishOp f) := by
    rw [List.getElem?_take_of_lt hij]
    exact hi
  obtain ⟨k, g, hik, hk, hc⟩ := cacheAfter_publish_exists (List.take j ops) none i f hi'
  have hkj : k < j := by
    have hklen : k < (List.take j ops).length := by
      by_contra hcon
      rw [List.getElem?_eq_none (le_of_not_lt hcon)] at hk
      cases hk
    rw [List.length_take] at hklen
    exact lt_of_lt_of_le hklen (min_le_left j ops.length)
  have hk' : ops[k]? = some (CacheOp.publishOp g) := by
    rw [List.getElem?_take_of_lt hkj] at hk
    exact hk
  refine ⟨g, hc, ?_⟩
  rcases eq_or_lt_of_le hik with rfl | hlt
  · rw [hi] at hk'
    obtain rfl := CacheOp.publishOp.inj (Option.some.inj hk')
    exact le_refl _
  · exact hmono i k f g hlt hi hk'

/-- C9 witness: in the trace that publishes the sample frame and then reads,
the read after both operations returns a frame with at least the published
sequence 5. -/
theorem C9_latest_wins_witness :
    ∃ g, readResultAt [CacheOp.publishOp sampleFrame, CacheOp.readOp] 2 = some g ∧
      sampleFrame.seq ≤ g.seq := by
  refine C9_latest_wins [CacheOp.publishOp sampleFrame, CacheOp.readOp] 0 2 sampleFrame
    ?_ (by decide) rfl
  intro a b f g hab ha hb
  rcases b with _ | _ | b
  · omega
  · simp at hb
  · simp at hb

/-- C10: stepping raises a ValueError exactly when the action has fewer than
3 components; an action with exactly 3 components proceeds with the clutch
channel defaulting to 0 (visible in the smoother state the step produces),
and an action with 4 or more components uses its fourth component as clutch;
the three leading channels are passed through the step's range clamp. -/
theorem C10_action_arity (st : StepperState) (t : ℚ) (a : List ℚ) :
    (isValueErrorResult (stepperStep st t a).1 = true ↔ a.length < 3) ∧
    (a.length = 3 →
      (stepperStep st t a).2.smoother =
        (smooth st.cfg st.smoother (npClip (a.getD 0 0) (-1) 1) (npClip (a.getD 1 0) 0 1)
          (npClip (a.getD 2 0) 0 1) 0).1) ∧
    (4 ≤ a.length →
      (stepperStep st t a).2.smoother =
        (smooth st.cfg st.smoother (npClip (a.getD 0 0) (-1) 1) (npClip (a.getD 1 0) 0 1)
          (npClip (a.getD 2 0) 0 1) (a.getD 3 0)).1) := by
  by_cases hlen : a.length < 3
  · refine ⟨?_, fun h3 => absurd hlen (by omega), fun h4 => absurd hlen (by omega)⟩
    rw [stepperStep, if_pos hlen]
    simp [isValueErrorResult, hlen]
  · rw [stepperStep, if_neg hlen]
    refine ⟨?_, fun h3 => ?_, fun h4 => ?_⟩
    · cases hc : st.cache <;>
        simp [latestObs, hc, isValueErrorResult, hlen]
    · have hnc : ¬(3 < a.length) := by omega
      cases hc : st.cache <;>
        simp [latestObs, hc, hnc]
    · have hcl : 3 < a.length := by omega
      cases hc : st.cache <;>
        simp [latestObs, hc, hcl]

/-- C10 witness: a 2-component action raises a ValueError, a 3-component
action feeds clutch 0 to the smoother, and a 4-component action feeds its
fourth component 1/2 to the smoother. -/
theorem C10_action_arity_witness :
    isValueErrorResult (stepperStep sampleStepperNoFrame 0 [1, 0]).1 = true ∧
    (stepperStep sampleStepperWithFrame 0 [1, 0, 0]).2.smoother =
      (smooth sampleStepperWithFrame.cfg sampleStepperWithFrame.smoother
        (npClip ([(1 : ℚ), 0, 0].getD 0 0) (-1) 1) (npClip ([(1 : ℚ), 0, 0].getD 1 0) 0 1)
        (npClip ([(1 : ℚ), 0, 0].getD 2 0) 0 1) 0).1 ∧
    (stepperStep sampleStepperWithFrame 0 [1, 0, 0, 1/2]).2.smoother =
      (smooth sampleStepperWithFrame.cfg sampleStepperWithFrame.smoother
        (npClip ([(1 : ℚ), 0, 0, 1/2].getD 0 0) (-1) 1)
        (npClip ([(1 : ℚ), 0, 0, 1/2].getD 1 0) 0 1)
        (npClip ([(1 : ℚ), 0, 0, 1/2].getD 2 0) 0 1) ([(1 : ℚ), 0, 0, 1/2].getD 3 0)).1 := by
  have h1 := (C10_action_arity sampleStepperNoFrame 0 [1, 0]).1
  have h2 := (C10_action_arity sampleStepperWithFrame 0 [1, 0, 0]).2.1
  have h3 := (C10_action_arity sampleStepperWithFrame 0 [1, 0, 0, 1/2]).2.2
  exact ⟨h1.mpr (by decide), h2 (by decide), h3 (by decide)⟩

end ACBridge
